import Mathlib

/-!
# TG-monitor — verified model of the message pipeline

Shallow embedding of the TG-monitor pipeline (Rust), covering:

* `src/ai/mod.rs` — `parse_analysis_response` and its heuristic helpers;
* `src/ai/models.rs` — `AnalysisResult`, `TokenInfo::from_analysis`, `SummaryReport`;
* `src/ai/kimi.rs` / `src/ai/local.rs` — the `analyze` retry loop;
* `src/processor.rs` — `should_filter`, message submission, `send_summary_report`,
  and the monitored-channel registry (`update_channels`).

Modelling conventions:

* Rust `f32`/`f64` values are modelled as exact rationals (`ℚ`); the code only
  stores, adds and divides these values, and every claim is about which value
  flows where, not about rounding.
* `chrono::Utc::now().timestamp()` is passed in as an explicit `now : Int`.
* `serde_json::from_str` is abstracted: the outcome of parsing a string is an
  arbitrary `Option Json` supplied to the function (so theorems quantify over
  every possible parse outcome of every string).
* Rust's Unicode `to_lowercase` / `is_uppercase` are modelled by their ASCII
  restrictions; all string literals appearing in the code's keyword tables are
  ASCII or caseless CJK, where the two coincide.
-/

namespace TGMonitor

/-! ## String helpers (models of the Rust `str` operations used) -/

/-- ASCII lowercasing, modelling `str::to_lowercase` on the inputs considered. -/
def lowerAscii (s : String) : String :=
  ⟨s.data.map Char.toLower⟩

/-- Substring test on character lists, modelling `str::contains(&str)`.
For valid UTF-8, byte-level substring occurrence coincides with
character-level occurrence. -/
def isInfixList (needle : List Char) : List Char → Bool
  | [] => needle.isEmpty
  | c :: rest => List.isPrefixOf needle (c :: rest) || isInfixList needle rest

/-- `hay.contains(needle)` for Rust strings. -/
def strContains (hay needle : String) : Bool :=
  isInfixList needle.data hay.data

/-- Worker for `splitWs`: `acc` holds the current word, reversed. -/
def splitWsAux : List Char → List Char → List String
  | [], acc => if acc.isEmpty then [] else [String.mk acc.reverse]
  | c :: rest, acc =>
    if c.isWhitespace then
      if acc.isEmpty then splitWsAux rest []
      else String.mk acc.reverse :: splitWsAux rest []
    else
      splitWsAux rest (c :: acc)

/-- Model of `str::split_whitespace`: maximal whitespace-free words, in
order, with no empty pieces. -/
def splitWs (s : String) : List String :=
  splitWsAux s.data []

/-- UTF-8 byte length of a string, modelling Rust `str::len`. -/
def byteLen (s : String) : Nat :=
  s.data.foldl (fun n c => n + c.utf8Size) 0

/-! ## JSON values (model of `serde_json::Value`) -/

/-- A parsed JSON value, as produced by `serde_json::from_str::<Value>`. -/
inductive Json where
  | null
  | bool (b : Bool)
  | num (q : ℚ)
  | str (s : String)
  | arr (xs : List Json)
  | obj (fields : List (String × Json))

namespace Json

/-- `value[key]` on a `serde_json::Value`: field lookup on objects,
`Null` on everything else (serde's read-only `Index<&str>`). -/
def get (j : Json) (key : String) : Json :=
  match j with
  | .obj fields => ((fields.find? (fun f => f.1 == key)).map (fun f => f.2)).getD .null
  | _ => .null

/-- `value[i]` on a `serde_json::Value`: array indexing, `Null` out of
bounds or on non-arrays. -/
def idx (j : Json) (i : Nat) : Json :=
  match j with
  | .arr xs => (xs.get? i).getD .null
  | _ => .null

/-- `Value::as_bool`. -/
def asBool : Json → Option Bool
  | .bool b => some b
  | _ => none

/-- `Value::as_str`. -/
def asStr : Json → Option String
  | .str s => some s
  | _ => none

/-- `Value::as_f64`: any JSON number (modelled exactly as a rational). -/
def asF64 : Json → Option ℚ
  | .num q => some q
  | _ => none

/-- `Value::as_i64`: integral JSON numbers (the i64 range bound is not
modelled; the values in play are single-digit urgencies). -/
def asI64 : Json → Option Int
  | .num q => if q.den = 1 then some q.num else none
  | _ => none

end Json

/-! ## `src/ai/models.rs` — data model -/

/-- `AnalysisResult` (src/ai/models.rs:6). `confidence: f32` is modelled as
`ℚ`, `urgency: i32` and `timestamp: i64` as `Int`. -/
structure AnalysisResult where
  is_relevant : Bool
  token_name : Option String
  contract_address : Option String
  recommendation : Option String
  reason : Option String
  confidence : ℚ
  urgency : Int
  source : String
  timestamp : Int
  raw_response : Option String
deriving DecidableEq

/-! ## `src/ai/mod.rs` — response interpretation -/

/-- `AIError` (src/ai/mod.rs:12). -/
inductive AIError where
  | configError (msg : String)
  | apiError (msg : String)
  | parseError (msg : String)
  | networkError (msg : String)
  | timeoutError
  | unsupportedProvider (msg : String)
deriving DecidableEq

/-- The keyword table of `is_token_related_message` (src/ai/mod.rs:146). -/
def tokenKeywords : List String :=
  ["token", "代币", "合约", "address", "地址", "买入", "卖出",
   "hold", "持有", "buy", "sell", "合约地址", "token address",
   "发射", "launch", "池子", "pool", "liquidity", "流动性",
   "chart", "k线", "阳线", "阴线", "突破", "break"]

/-- `is_token_related_message` (src/ai/mod.rs:144): lowercase the message and
test whether any keyword occurs in it. -/
def is_token_related_message (message : String) : Bool :=
  let lower_msg := lowerAscii message
  tokenKeywords.any (fun kw => strContains lower_msg kw)

/-- `extract_token_name` (src/ai/mod.rs:157): first whitespace-delimited word
of byte length 2–10 all of whose characters are uppercase letters or ASCII
digits. -/
def extract_token_name (message : String) : Option String :=
  (splitWs message).find? (fun word =>
    decide (2 ≤ byteLen word) && decide (byteLen word ≤ 10) &&
      word.data.all (fun c => c.isUpper || c.isDigit))

/-- Hex digit test for the `0x[a-fA-F0-9]{40}` pattern. -/
def isHexChar (c : Char) : Bool :=
  c.isDigit || (decide ('a' ≤ c) && decide (c ≤ 'f')) || (decide ('A' ≤ c) && decide (c ≤ 'F'))

/-- Leftmost match of the regex `0x[a-fA-F0-9]{40}` (src/ai/mod.rs:173). -/
def findContract : List Char → Option String
  | [] => none
  | '0' :: 'x' :: tl =>
    let pre := tl.take 40
    if pre.length = 40 && pre.all isHexChar then
      some (String.mk ('0' :: 'x' :: pre))
    else
      findContract ('x' :: tl)
  | _ :: tl => findContract tl

/-- `extract_contract_address` (src/ai/mod.rs:169). -/
def extract_contract_address (message : String) : Option String :=
  findContract message.data

/-- `extract_recommendation_from_text` (src/ai/mod.rs:193). -/
def extract_recommendation_from_text (content : String) : Option String :=
  let lower := lowerAscii content
  if strContains lower "buy" || strContains lower "买入" then
    some "买入"
  else if strContains lower "sell" || strContains lower "卖出" then
    some "卖出"
  else if strContains lower "hold" || strContains lower "持有" then
    some "持有"
  else
    none

/-- `extract_recommendation` (src/ai/mod.rs:178): the `recommendation` field
if present, else keyword extraction from the `content`/`response` field.
(`_raw_content` is unused in the source as well.) -/
def extract_recommendation (json_data : Json) (_raw_content : String) : Option String :=
  match (json_data.get "recommendation").asStr with
  | some rec => some rec
  | none =>
    match ((json_data.get "content").asStr).orElse (fun _ => (json_data.get "response").asStr) with
    | some content => extract_recommendation_from_text content
    | none => none

/-- The result built by the non-JSON tail of `parse_analysis_response`
(src/ai/mod.rs:124–141): heuristic classification of the original message;
the code returns `Ok` of this record. -/
def heuristicResult (content original_message source : String) (now : Int) : AnalysisResult :=
  let is_relevant := is_token_related_message original_message
  { is_relevant
    token_name := extract_token_name original_message
    contract_address := extract_contract_address original_message
    recommendation := if is_relevant then extract_recommendation_from_text content else none
    reason := if is_relevant then some content else none
    confidence := if is_relevant then 0.5 else 0.0
    urgency := if is_relevant then 5 else 0
    source := source
    timestamp := now
    raw_response := some content }

/-- `parse_analysis_response` (src/ai/mod.rs:84). `parsed` is the outcome of
`serde_json::from_str::<Value>(content)`; `now` the timestamp stamped on the
result. -/
def parse_analysis_response (parsed : Option Json) (content original_message source : String)
    (now : Int) : Except AIError AnalysisResult :=
  match parsed with
  | some json_data =>
    match (json_data.get "is_relevant").asBool with
    | some is_relevant =>
      -- trusted path: the JSON carries a boolean `is_relevant`
      .ok { is_relevant
            token_name := (json_data.get "token_name").asStr
            contract_address := (json_data.get "contract_address").asStr
            recommendation := (json_data.get "recommendation").asStr
            reason := (json_data.get "reason").asStr
            confidence := ((json_data.get "confidence").asF64).getD 0
            urgency := ((json_data.get "urgency").asI64).getD 0
            source := source
            timestamp := now
            raw_response := some content }
    | none =>
      if is_token_related_message original_message then
        -- JSON without the standard shape, but the message looks token-related
        .ok { is_relevant := true
              token_name := extract_token_name original_message
              contract_address := extract_contract_address original_message
              recommendation := extract_recommendation json_data content
              reason := ((json_data.get "reason").asStr).orElse (fun _ => some content)
              confidence := 0.6
              urgency := 5
              source := source
              timestamp := now
              raw_response := some content }
      else
        .ok (heuristicResult content original_message source now)
  | none => .ok (heuristicResult content original_message source now)

/-! ## `src/ai/models.rs` — `TokenInfo::from_analysis` and `SummaryReport` -/

/-- `TokenInfo` (src/ai/models.rs:199). `mentions: i32` is modelled as `Int`
(the `usize → i32` cast cannot wrap on in-memory group sizes),
`avg_confidence: f32` as `ℚ`. -/
structure TokenInfo where
  name : String
  contract_address : Option String
  mentions : Int
  sources : List String
  recommendation : String
  avg_confidence : ℚ
  first_seen : Int
  last_seen : Int
deriving DecidableEq

/-- Occurrence count of `x` in `items`, as tallied by the `HashMap` in
`find_most_common` (src/ai/models.rs:361). -/
def countOcc (items : List String) (x : String) : Nat :=
  items.countP (fun y => y == x)

/-- Deduplicate, keeping the first occurrence of each element. -/
def dedupFirst (items : List String) : List String :=
  items.foldl (fun acc x => if acc.contains x then acc else acc ++ [x]) []

/-- `find_most_common` (src/ai/models.rs:361): an element of maximal
multiplicity. The source iterates a `HashMap` in unspecified order; the
model iterates the distinct values in first-appearance order and keeps the
first maximum (no claim depends on the tie-break). `items[0]` is the
source's fallback for an empty list (there it would panic; the function is
only applied to non-empty lists). -/
def find_most_common (items : List String) : String :=
  (dedupFirst items).foldl
    (fun best x => if countOcc items best < countOcc items x then x else best)
    (items.headD "")

/-- `TokenInfo::from_analysis` (src/ai/models.rs:227). Faithful to the
source, including: `first_seen`/`last_seen` are initialised from the first
result and never updated in the loop, and `avg_confidence` falls back to
`0.0` whenever `recommendations` (not the confidences) is empty. -/
def TokenInfo.from_analysis (results : List AnalysisResult) : Option TokenInfo :=
  match results with
  | [] => none
  | first :: _ =>
    match first.token_name with
    | none => none
    | some token_name =>
      let contract_address := first.contract_address
      let mentions : Int := results.length
      let sources := dedupFirst (results.map (fun r => r.source))
      let recommendations := results.filterMap (fun r => r.recommendation)
      let total_confidence : ℚ := (results.map (fun r => r.confidence)).sum
      let first_seen := first.timestamp
      let last_seen := first.timestamp
      let avg_confidence : ℚ :=
        if recommendations.isEmpty then 0.0 else total_confidence / (mentions : ℚ)
      let recommendation :=
        if recommendations.isEmpty then "观望" else find_most_common recommendations
      some { name := token_name
             contract_address
             mentions
             sources
             recommendation
             avg_confidence
             first_seen
             last_seen }

/-- `SummaryReport` (src/ai/models.rs:306). -/
structure SummaryReport where
  tokens : List TokenInfo
  generated_at : Int
  total_messages : Nat
  relevant_messages : Nat
deriving DecidableEq

/-! ## `src/processor.rs` — filtering, submission, aggregation, registry -/

/-- `Message` (src/ai/models.rs:143). -/
structure Message where
  id : Int
  channel_id : Int
  channel_name : String
  text : String
  timestamp : Int
  sender : Option String
  media_type : Option String
deriving DecidableEq

/-- `MessageProcessor::should_filter` (src/processor.rs:323): with no
configured keywords nothing is filtered; otherwise a message is filtered
exactly when it contains none of the keywords (case-insensitively). -/
def should_filter (keywords : List String) (text : String) : Bool :=
  if keywords.isEmpty then
    false
  else
    let lower_text := lowerAscii text
    let has_keyword := keywords.any (fun keyword => strContains lower_text (lowerAscii keyword))
    !has_keyword

/-- The queue-admission step of `MessageProcessor::process_message`
(src/processor.rs:86–98): a filtered message is dropped (`Ok(())` without
queueing); otherwise it is appended to the tail of the queue. Returns the
new queue and whether the message was queued. The subsequent size-triggered
drain (src/processor.rs:101–108) swaps the queue out and is modelled by
`process_queue` separately. -/
def process_message_submit (keywords : List String) (queue : List Message) (message : Message) :
    List Message × Bool :=
  if should_filter keywords message.text then
    (queue, false)
  else
    (queue ++ [message], true)

/-- Append a result to the group for key `n`, creating the group on first
sight (the `HashMap::entry(..).or_insert_with(..).push(..)` of
src/processor.rs:242; the map's iteration order is unspecified in the
source, modelled as first-appearance key order). -/
def insertGroup (acc : List (String × List AnalysisResult)) (n : String) (r : AnalysisResult) :
    List (String × List AnalysisResult) :=
  if acc.any (fun g => g.1 == n) then
    acc.map (fun g => if g.1 == n then (g.1, g.2 ++ [r]) else g)
  else
    acc ++ [(n, [r])]

/-- The grouping loop of `send_summary_report` (src/processor.rs:239–246):
results without a `token_name` are dropped. -/
def groupByToken (results : List AnalysisResult) : List (String × List AnalysisResult) :=
  results.foldl
    (fun acc r =>
      match r.token_name with
      | none => acc
      | some n => insertGroup acc n r)
    []

/-- Stable insertion for the descending-by-mentions sort
(src/processor.rs:257, `sort_by(|a, b| b.mentions.cmp(&a.mentions))`). -/
def insertByMentionsDesc (t : TokenInfo) : List TokenInfo → List TokenInfo
  | [] => [t]
  | h :: rest =>
    if h.mentions < t.mentions then t :: h :: rest else h :: insertByMentionsDesc t rest

/-- Sort token entries by `mentions` descending (stable, like Rust `sort_by`). -/
def sortByMentionsDesc (ts : List TokenInfo) : List TokenInfo :=
  ts.foldr insertByMentionsDesc []

/-- `MessageProcessor::send_summary_report` (src/processor.rs:223): on an
empty accumulated buffer, return immediately without draining or reporting;
otherwise drain the buffer, group by token name, build entries, sort, and
deliver the report when it has entries. Returns the new buffer and the
delivered report, if any; the source returns `Ok(())` on every path
(delivery errors are logged and swallowed, src/processor.rs:313–316), so no
error component is modelled. -/
def send_summary_report (now : Int) (buffer : List AnalysisResult) :
    List AnalysisResult × Option SummaryReport :=
  if buffer.isEmpty then
    (buffer, none)
  else
    let results := buffer
    let tokens := (groupByToken results).filterMap (fun g => TokenInfo.from_analysis g.2)
    let sorted := sortByMentionsDesc tokens
    let report : SummaryReport :=
      { tokens := sorted
        generated_at := now
        total_messages := 0
        relevant_messages := 0 }
    ([], if report.tokens.isEmpty then none else some report)

/-- `ChannelInfo` (src/http/channel_handler.rs), as used by the registry in
`src/processor.rs`. -/
structure ChannelInfo where
  channel_id : Int
  channel_name : Option String
  added_at : Int
deriving DecidableEq

/-- The `HashMap` of existing names built in `update_channels`
(src/processor.rs:391): on duplicate ids the last entry wins. -/
def existingName (channels : List ChannelInfo) (id : Int) : Option (Option String) :=
  ((channels.reverse).find? (fun c => c.channel_id == id)).map (fun c => c.channel_name)

/-- `MessageProcessor::update_channels` (src/processor.rs:387): replace the
registry with the given ids, looking up each id's previous name. Faithful
to the source: the `map_or` at src/processor.rs:400–403 evaluates to the
current time in both branches, so `added_at` is freshly stamped for
retained ids as well. -/
def update_channels (now : Int) (channels : List ChannelInfo) (channel_ids : List Int) :
    List ChannelInfo :=
  channel_ids.map (fun id =>
    { channel_id := id
      channel_name := (existingName channels id).getD none
      added_at :=
        match existingName channels id with
        | none => now
        | some _ => now })

/-! ## `src/ai/kimi.rs` / `src/ai/local.rs` — the `analyze` retry loop -/

/-- What one iteration of the retry loop observes from the HTTP layer:
the `send()` call fails, or a response arrives with a success status and a
JSON-decoded (or undecodable) body, or a response arrives with a non-2xx
status and an error text. -/
inductive AttemptOutcome where
  | sendErr (e : String)
  | success (body : Except String Json)
  | httpErr (status : Nat) (text : String)

/-- Attempts that set `last_error` and continue the loop: network errors,
non-2xx statuses, and bodies that fail JSON decoding. -/
def attemptFails : AttemptOutcome → Bool
  | .sendErr _ => true
  | .httpErr _ _ => true
  | .success (.error _) => true
  | .success (.ok _) => false

/-- The `AIError` recorded in `last_error` for a failing attempt (the value
for a non-failing attempt is irrelevant and never used). -/
def failCause : AttemptOutcome → AIError
  | .sendErr e => .networkError e
  | .httpErr status text => .apiError ("HTTP " ++ toString status ++ ": " ++ text)
  | .success (.error e) => .parseError e
  | .success (.ok _) => .apiError ""

/-- The trace of one `analyze` call: its result, how many loop iterations
ran, and the backoff waits (in seconds) performed before retries, in order. -/
structure AnalyzeTrace where
  result : Except AIError AnalysisResult
  attemptsMade : Nat
  waits : List Nat

/-- The `Display` rendering of `AIError` (the `#[error(..)]` strings of
src/ai/mod.rs:12–30). -/
def aiErrorDisplay : AIError → String
  | .configError m => "配置错误: " ++ m
  | .apiError m => "API 调用失败: " ++ m
  | .parseError m => "响应解析失败: " ++ m
  | .networkError m => "网络错误: " ++ m
  | .timeoutError => "超时错误"
  | .unsupportedProvider m => "不支持的提供商: " ++ m

/-- `parse_response` (src/ai/kimi.rs:73 / src/ai/local.rs:170): run
`parse_analysis_response` on the extracted content and re-wrap any error as
a `ParseError` of its display string. -/
def parse_response (fromStr : String → Option Json) (content original_message source : String)
    (now : Int) : Except AIError AnalysisResult :=
  match parse_analysis_response (fromStr content) content original_message source now with
  | .ok r => .ok r
  | .error e => .error (.parseError (aiErrorDisplay e))

/-- The body of the retry loop of `analyze` (src/ai/kimi.rs:106–156 and
src/ai/local.rs:69–120, identical up to the content-extraction step),
starting at iteration `attempt` with `fuel` iterations left and the
accumulated `last_error`. Before every iteration with `attempt > 0` the
code sleeps `2^(attempt-1)` seconds (recorded in `waits`). A success-status
response whose body decodes but lacks the expected content field returns a
`ParseError` immediately (the `?` operator), ending the loop; a body that
fails to decode, a non-2xx status, or a transport error set `last_error`
and continue. -/
def analyzeFrom (fromStr : String → Option Json) (extract : Json → Option String)
    (missingMsg source message : String) (now : Int) (outcomes : Nat → AttemptOutcome) :
    Nat → Nat → Option AIError → AnalyzeTrace
  | _, 0, lastError =>
    { result := .error (lastError.getD (.apiError "所有重试均失败"))
      attemptsMade := 0
      waits := [] }
  | attempt, fuel + 1, _ =>
    let wait : List Nat := if attempt = 0 then [] else [2 ^ (attempt - 1)]
    match outcomes attempt with
    | .success (.ok v) =>
      match extract v with
      | some content =>
        { result := parse_response fromStr content message source now
          attemptsMade := 1
          waits := wait }
      | none =>
        { result := .error (.parseError missingMsg)
          attemptsMade := 1
          waits := wait }
    | .success (.error e) =>
      let rest := analyzeFrom fromStr extract missingMsg source message now outcomes
        (attempt + 1) fuel (some (.parseError e))
      { result := rest.result
        attemptsMade := rest.attemptsMade + 1
        waits := wait ++ rest.waits }
    | .httpErr status text =>
      let rest := analyzeFrom fromStr extract missingMsg source message now outcomes
        (attempt + 1) fuel (some (.apiError ("HTTP " ++ toString status ++ ": " ++ text)))
      { result := rest.result
        attemptsMade := rest.attemptsMade + 1
        waits := wait ++ rest.waits }
    | .sendErr e =>
      let rest := analyzeFrom fromStr extract missingMsg source message now outcomes
        (attempt + 1) fuel (some (.networkError e))
      { result := rest.result
        attemptsMade := rest.attemptsMade + 1
        waits := wait ++ rest.waits }

/-- One full `analyze` call: `for attempt in 0..=max_retries` — that is,
`maxRetries + 1` loop iterations starting at attempt `0` with no recorded
error. -/
def analyzeLoop (fromStr : String → Option Json) (extract : Json → Option String)
    (missingMsg source message : String) (now : Int) (outcomes : Nat → AttemptOutcome)
    (maxRetries : Nat) : AnalyzeTrace :=
  analyzeFrom fromStr extract missingMsg source message now outcomes 0 (maxRetries + 1) none

/-- Content extraction of `KimiService::analyze`
(src/ai/kimi.rs:131–133): `result["choices"][0]["message"]["content"].as_str()`. -/
def kimiExtract (v : Json) : Option String :=
  ((((v.get "choices").idx 0).get "message").get "content").asStr

/-- Content extraction of `OllamaService::analyze`
(src/ai/local.rs:92–96): `result["response"].as_str()`. -/
def ollamaExtract (v : Json) : Option String :=
  (v.get "response").asStr

/-- `KimiService::analyze` (src/ai/kimi.rs:82–157). -/
def kimiAnalyze (fromStr : String → Option Json) (message : String) (now : Int)
    (outcomes : Nat → AttemptOutcome) (maxRetries : Nat) : AnalyzeTrace :=
  analyzeLoop fromStr kimiExtract "响应中没有 content 字段" "kimi" message now outcomes maxRetries

/-- `OllamaService::analyze` (src/ai/local.rs:49–121). -/
def ollamaAnalyze (fromStr : String → Option Json) (message : String) (now : Int)
    (outcomes : Nat → AttemptOutcome) (maxRetries : Nat) : AnalyzeTrace :=
  analyzeLoop fromStr ollamaExtract "响应中没有 response 字段" "local" message now outcomes maxRetries

/-! ## Spec-side reference definitions (for comparison with the code) -/

/-- Whether the parsed reply carries a boolean `is_relevant` field — the
guard of the trusted path of `parse_analysis_response`. -/
def jsonHasRelevantFlag (parsed : Option Json) : Bool :=
  match parsed with
  | some j => ((j.get "is_relevant").asBool).isSome
  | none => false

/-- Whether the message text contains at least one configured keyword,
case-insensitively — the `has_keyword` test inside `should_filter`. -/
def hasKeywordHit (keywords : List String) (text : String) : Bool :=
  keywords.any (fun keyword => strContains (lowerAscii text) (lowerAscii keyword))

/-- The spec's `average_confidence`: the arithmetic mean of `confidence`
across the group (spec §4.4/§8); stated from the spec's words, for
comparison with the `avg_confidence` the code computes. -/
def specMeanConfidence (results : List AnalysisResult) : ℚ :=
  ((results.map (fun r => r.confidence)).sum) / (results.length : ℚ)

/-- The spec's `last_seen`: the maximum `timestamp` across the group
(spec §4.4); stated from the spec's words, for comparison with the
`last_seen` the code computes. -/
def specMaxTimestamp (results : List AnalysisResult) : Option Int :=
  (results.map (fun r => r.timestamp)).max?

/-! ## Theorems -/

/-- Fields of the heuristic fallback result when the message is not
token-related: confidence, urgency, recommendation and reason are zeroed,
while `token_name`/`contract_address` are extracted unconditionally. -/
theorem heuristicResult_not_relevant (content original_message source : String) (now : Int)
    (hb : is_token_related_message original_message = false) :
    (heuristicResult content original_message source now).confidence = 0 ∧
    (heuristicResult content original_message source now).urgency = 0 ∧
    (heuristicResult content original_message source now).recommendation = none ∧
    (heuristicResult content original_message source now).reason = none ∧
    (heuristicResult content original_message source now).token_name
      = extract_token_name original_message ∧
    (heuristicResult content original_message source now).contract_address
      = extract_contract_address original_message := by
  refine ⟨?_, ?_, ?_, ?_, rfl, rfl⟩ <;> (first | (simp [heuristicResult, hb]; norm_num) | simp [heuristicResult, hb])

/-- C1 (counterexample): on the raw reply `"ok"` (not JSON) and original
message `"ABC hello"` (no trading keyword, but an all-caps word), the
interpreter returns `is_relevant = false` yet a non-empty `token_name` —
the claim that a non-relevant result carries empty
`token_name`/`contract_address` fails. -/
theorem c1_counterexample :
    ∃ r, parse_analysis_response none "ok" "ABC hello" "kimi" 0 = Except.ok r ∧
      r.is_relevant = false ∧ r.token_name ≠ none :=
  ⟨{ is_relevant := false, token_name := some "ABC", contract_address := none,
     recommendation := none, reason := none, confidence := 0.0, urgency := 0,
     source := "kimi", timestamp := 0, raw_response := some "ok" },
   rfl, rfl, by decide⟩

/-- C1 (amended): for results produced outside the JSON-trusted path (the
reply has no boolean `is_relevant` field), `is_relevant = false` implies
`confidence = 0`, `urgency = 0` and empty recommendation/reason, while
`token_name` and `contract_address` are still extracted from the original
message; on the JSON-trusted path all fields are copied from the reply
regardless of `is_relevant`. -/
theorem c1_amended_nonrelevant_fields (parsed : Option Json)
    (content original_message source : String) (now : Int) (r : AnalysisResult)
    (hflag : jsonHasRelevantFlag parsed = false)
    (h : parse_analysis_response parsed content original_message source now = Except.ok r)
    (hr : r.is_relevant = false) :
    r.confidence = 0 ∧ r.urgency = 0 ∧ r.recommendation = none ∧ r.reason = none ∧
    r.token_name = extract_token_name original_message ∧
    r.contract_address = extract_contract_address original_message := by
  have hheur : r = heuristicResult content original_message source now ∧
      is_token_related_message original_message = false := by
    cases parsed with
    | none =>
      simp only [parse_analysis_response, Except.ok.injEq] at h
      subst h
      refine ⟨rfl, ?_⟩
      by_contra hb
      rw [Bool.not_eq_false] at hb
      simp [heuristicResult, hb] at hr
    | some j =>
      cases hb : (j.get "is_relevant").asBool with
      | some b => simp [jsonHasRelevantFlag, hb] at hflag
      | none =>
        simp only [parse_analysis_response, hb] at h
        by_cases ht : is_token_related_message original_message = true
        · simp only [ht, if_true, Except.ok.injEq] at h
          subst h
          simp at hr
        · rw [Bool.not_eq_true] at ht
          simp only [ht, Bool.false_eq_true, if_false, Except.ok.injEq] at h
          subst h
          exact ⟨rfl, ht⟩
  obtain ⟨hrw, hb⟩ := hheur
  subst hrw
  exact heuristicResult_not_relevant content original_message source now hb

/-- C1 (witness): the amended statement instantiated on the counterexample
input itself. -/
theorem c1_amended_witness :
    (heuristicResult "ok" "ABC hello" "kimi" 0).confidence = 0 ∧
    (heuristicResult "ok" "ABC hello" "kimi" 0).urgency = 0 ∧
    (heuristicResult "ok" "ABC hello" "kimi" 0).recommendation = none ∧
    (heuristicResult "ok" "ABC hello" "kimi" 0).reason = none ∧
    (heuristicResult "ok" "ABC hello" "kimi" 0).token_name = extract_token_name "ABC hello" ∧
    (heuristicResult "ok" "ABC hello" "kimi" 0).contract_address
      = extract_contract_address "ABC hello" :=
  c1_amended_nonrelevant_fields none "ok" "ABC hello" "kimi" 0
    (heuristicResult "ok" "ABC hello" "kimi" 0) rfl rfl rfl

/-- A relevant single-mention result for token `FOO` with confidence `0.5`
and no recommendation — the failing input of C2. -/
def c2Result : AnalysisResult :=
  { is_relevant := true, token_name := some "FOO", contract_address := none,
    recommendation := none, reason := none, confidence := 0.5, urgency := 5,
    source := "kimi", timestamp := 5, raw_response := none }

/-- C2: on a group of one result for `FOO` with confidence `0.5` and no
recommendation, `TokenInfo::from_analysis` produces one entry with
`mentions = 1` but `avg_confidence = 0`, while the arithmetic mean of the
confidences is `0.5` — the division by the group size is wrongly gated on
`recommendations.is_empty()` (src/ai/models.rs:256–260). -/
theorem c2_avg_gated_on_recommendations :
    (∃ info, TokenInfo.from_analysis [c2Result] = some info ∧
      info.mentions = 1 ∧ info.avg_confidence = 0) ∧
    specMeanConfidence [c2Result] = 0.5 := by
  constructor
  · refine ⟨{ name := "FOO", contract_address := none, mentions := 1,
              sources := ["kimi"], recommendation := "观望", avg_confidence := 0.0,
              first_seen := 5, last_seen := 5 },
      rfl, rfl, ?_⟩
    norm_num
  · simp [specMeanConfidence, c2Result]

/-- The earlier of the two C5 results (timestamp 10). -/
def c5Early : AnalysisResult :=
  { is_relevant := true, token_name := some "FOO", contract_address := none,
    recommendation := none, reason := none, confidence := 0.5, urgency := 5,
    source := "kimi", timestamp := 10, raw_response := none }

/-- The later of the two C5 results (timestamp 20). -/
def c5Late : AnalysisResult :=
  { is_relevant := true, token_name := some "FOO", contract_address := none,
    recommendation := none, reason := none, confidence := 0.5, urgency := 5,
    source := "kimi", timestamp := 20, raw_response := none }

/-- C5: on a group with timestamps 10 and 20, `TokenInfo::from_analysis`
returns `first_seen = last_seen = 10` — both are initialised from the first
result and never updated in the loop (src/ai/models.rs:241–242) — while the
group's maximum timestamp is 20. -/
theorem c5_last_seen_stuck_at_first :
    (∃ info, TokenInfo.from_analysis [c5Early, c5Late] = some info ∧
      info.first_seen = 10 ∧ info.last_seen = 10) ∧
    specMaxTimestamp [c5Early, c5Late] = some 20 := by
  constructor
  · exact ⟨{ name := "FOO", contract_address := none, mentions := 2,
             sources := ["kimi"], recommendation := "观望", avg_confidence := 0.0,
             first_seen := 10, last_seen := 10 },
      rfl, rfl, rfl⟩
  · simp [specMaxTimestamp, c5Early, c5Late]

/-- C6: replacing the registry `[{id 1, name "a", added_at 100}]` with the
id list `[1]` at time 200 keeps the name but stamps `added_at = 200` — the
`map_or` at src/processor.rs:400–403 takes the current time in both
branches, so the retained id's original timestamp (100) is not preserved,
contradicting the code's own comment and the claim. -/
theorem c6_added_at_refreshed :
    update_channels 200 [{ channel_id := 1, channel_name := some "a", added_at := 100 }] [1] =
      [{ channel_id := 1, channel_name := some "a", added_at := 200 }] := by
  decide

/-- C3 (counterexample): with configured keywords `["token","合约地址"]`, the
keyword-free message `"hello world"` is filtered: `should_filter` returns
`true` (the claim says `false`) and the message is not appended to the
queue. -/
theorem c3_counterexample :
    should_filter ["token", "合约地址"] "hello world" = true ∧
    process_message_submit ["token", "合约地址"] []
      { id := 1, channel_id := 2, channel_name := "c", text := "hello world",
        timestamp := 0, sender := none, media_type := none } = ([], false) := by
  constructor <;> decide

/-- C3 (amended): with configured keywords `["token","合约地址"]`, a message
containing neither keyword is rejected — `should_filter` returns `true` and
the queue is unchanged — while a message containing at least one keyword
(case-insensitively) passes the filter and is appended to the queue. -/
theorem c3_amended_keyword_free_rejected (queue : List Message) (m : Message) :
    (hasKeywordHit ["token", "合约地址"] m.text = false →
      should_filter ["token", "合约地址"] m.text = true ∧
      process_message_submit ["token", "合约地址"] queue m = (queue, false)) ∧
    (hasKeywordHit ["token", "合约地址"] m.text = true →
      should_filter ["token", "合约地址"] m.text = false ∧
      process_message_submit ["token", "合约地址"] queue m = (queue ++ [m], true)) := by
  have hfilter : should_filter ["token", "合约地址"] m.text
      = !hasKeywordHit ["token", "合约地址"] m.text := by
    simp [should_filter, hasKeywordHit]
  constructor <;> intro h <;>
    simp [process_message_submit, hfilter, h]

/-- C3 (witness): the amended statement on the concrete keyword-free
message `"hello world"` with an empty queue. -/
theorem c3_amended_witness :
    should_filter ["token", "合约地址"] "hello world" = true ∧
    process_message_submit ["token", "合约地址"] []
      { id := 1, channel_id := 2, channel_name := "c", text := "hello world",
        timestamp := 0, sender := none, media_type := none } = ([], false) :=
  (c3_amended_keyword_free_rejected []
    { id := 1, channel_id := 2, channel_name := "c", text := "hello world",
      timestamp := 0, sender := none, media_type := none }).1 rfl

/-- C8: the response interpreter is total — for every parse outcome of
every raw reply, every original message and every backend id, it returns
`Ok` of some result and never an error. -/
theorem c8_parse_total (parsed : Option Json) (content original_message source : String)
    (now : Int) :
    ∃ r, parse_analysis_response parsed content original_message source now = Except.ok r := by
  cases parsed with
  | none => exact ⟨_, rfl⟩
  | some j =>
    simp only [parse_analysis_response]
    cases hb : (j.get "is_relevant").asBool with
    | some b => exact ⟨_, rfl⟩
    | none =>
      by_cases ht : is_token_related_message original_message = true
      · simp only [ht, if_true]
        exact ⟨_, rfl⟩
      · rw [Bool.not_eq_true] at ht
        simp only [ht, Bool.false_eq_true, if_false]
        exact ⟨_, rfl⟩

/-- C9: the aggregation step on an empty accumulated buffer is a no-op — it
returns immediately with the buffer still empty and produces no report (the
source returns `Ok(())` on this path). -/
theorem c9_empty_buffer_noop (now : Int) :
    send_summary_report now [] = ([], none) := rfl

/-- C10: `TokenInfo::from_analysis` derives identity fields solely from the
first element — if the first result has no `token_name` the group produces
no entry (even if later results have one), and any produced entry's
`contract_address` is exactly the first result's. -/
theorem c10_identity_from_first (first : AnalysisResult) (rest : List AnalysisResult) :
    (first.token_name = none → TokenInfo.from_analysis (first :: rest) = none) ∧
    (∀ info, TokenInfo.from_analysis (first :: rest) = some info →
      info.contract_address = first.contract_address) := by
  constructor
  · intro h
    simp [TokenInfo.from_analysis, h]
  · intro info h
    cases htn : first.token_name with
    | none => simp [TokenInfo.from_analysis, htn] at h
    | some tn =>
      simp only [TokenInfo.from_analysis, htn, Option.some.injEq] at h
      rw [← h]

/-- C10 (witness): a group whose first element lacks a token name yields no
entry, even though the second element carries both a token name and a
contract address. -/
theorem c10_identity_witness :
    TokenInfo.from_analysis
      [{ is_relevant := true, token_name := none, contract_address := none,
         recommendation := none, reason := none, confidence := 0.5, urgency := 5,
         source := "kimi", timestamp := 0, raw_response := none },
       { is_relevant := true, token_name := some "FOO", contract_address := some "0xabc",
         recommendation := none, reason := none, confidence := 0.5, urgency := 5,
         source := "kimi", timestamp := 1, raw_response := none }] = none :=
  (c10_identity_from_first
    { is_relevant := true, token_name := none, contract_address := none,
      recommendation := none, reason := none, confidence := 0.5, urgency := 5,
      source := "kimi", timestamp := 0, raw_response := none }
    [{ is_relevant := true, token_name := some "FOO", contract_address := some "0xabc",
       recommendation := none, reason := none, confidence := 0.5, urgency := 5,
       source := "kimi", timestamp := 1, raw_response := none }]).1 rfl

/-- The retry loop never runs more iterations than it has fuel. -/
theorem analyzeFrom_attemptsMade_le (f : String → Option Json) (ex : Json → Option String)
    (m s msg : String) (n : Int) (oc : Nat → AttemptOutcome) :
    ∀ (fuel attempt : Nat) (le : Option AIError),
      (analyzeFrom f ex m s msg n oc attempt fuel le).attemptsMade ≤ fuel := by
  intro fuel
  induction fuel with
  | zero => intro attempt le; simp [analyzeFrom]
  | succ k ih =>
    intro attempt le
    rcases hoc : oc attempt with e | body | ⟨status, text⟩
    · simp only [analyzeFrom, hoc]
      exact Nat.succ_le_succ (ih _ _)
    · rcases body with e | v
      · simp only [analyzeFrom, hoc]
        exact Nat.succ_le_succ (ih _ _)
      · rcases hev : ex v with _ | content <;> simp [analyzeFrom, hoc, hev]
    · simp only [analyzeFrom, hoc]
      exact Nat.succ_le_succ (ih _ _)

/-- The retry loop runs at least one iteration when it has fuel. -/
theorem analyzeFrom_one_le_attemptsMade (f : String → Option Json) (ex : Json → Option String)
    (m s msg : String) (n : Int) (oc : Nat → AttemptOutcome) :
    ∀ (fuel attempt : Nat) (le : Option AIError), 1 ≤ fuel →
      1 ≤ (analyzeFrom f ex m s msg n oc attempt fuel le).attemptsMade := by
  intro fuel
  cases fuel with
  | zero => intro attempt le h; omega
  | succ k =>
    intro attempt le _
    rcases hoc : oc attempt with e | body | ⟨status, text⟩
    · simp [analyzeFrom, hoc]
    · rcases body with e | v
      · simp [analyzeFrom, hoc]
      · rcases hev : ex v with _ | content <;> simp [analyzeFrom, hoc, hev]
    · simp [analyzeFrom, hoc]

/-- Backoff waits of a loop started at a retry iteration (`1 ≤ attempt`):
one wait of `2^(attempt-1+j)` seconds before the `j`-th iteration actually
run. -/
theorem analyzeFrom_waits (f : String → Option Json) (ex : Json → Option String)
    (m s msg : String) (n : Int) (oc : Nat → AttemptOutcome) :
    ∀ (fuel attempt : Nat) (le : Option AIError), 1 ≤ attempt →
      (analyzeFrom f ex m s msg n oc attempt fuel le).waits =
        (List.range (analyzeFrom f ex m s msg n oc attempt fuel le).attemptsMade).map
          (fun j => 2 ^ (attempt - 1 + j)) := by
  intro fuel
  induction fuel with
  | zero => intro attempt le h; simp [analyzeFrom]
  | succ k ih =>
    intro attempt le h
    have hne : ¬ attempt = 0 := by omega
    have harith : ∀ j : ℕ, attempt - 1 + (j + 1) = attempt + 1 - 1 + j := by omega
    rcases hoc : oc attempt with e | body | ⟨status, text⟩
    · simp only [analyzeFrom, hoc, hne, if_false]
      rw [ih (attempt + 1) _ (by omega)]
      simp [List.range_succ_eq_map, List.map_map, Function.comp_def, harith]
    · rcases body with e | v
      · simp only [analyzeFrom, hoc, hne, if_false]
        rw [ih (attempt + 1) _ (by omega)]
        simp [List.range_succ_eq_map, List.map_map, Function.comp_def, harith]
      · rcases hev : ex v with _ | content <;>
          simp [analyzeFrom, hoc, hev, hne, List.range_succ]
    · simp only [analyzeFrom, hoc, hne, if_false]
      rw [ih (attempt + 1) _ (by omega)]
      simp [List.range_succ_eq_map, List.map_map, Function.comp_def, harith]

/-- One failing loop iteration: record the failure cause as `last_error`,
wait if this is a retry, and continue with the remaining fuel. -/
theorem analyzeFrom_succ_fail (f : String → Option Json) (ex : Json → Option String)
    (m s msg : String) (n : Int) (oc : Nat → AttemptOutcome) (attempt fuel : Nat)
    (le : Option AIError) (h : attemptFails (oc attempt) = true) :
    analyzeFrom f ex m s msg n oc attempt (fuel + 1) le =
      { result :=
          (analyzeFrom f ex m s msg n oc (attempt + 1) fuel
            (some (failCause (oc attempt)))).result
        attemptsMade :=
          (analyzeFrom f ex m s msg n oc (attempt + 1) fuel
            (some (failCause (oc attempt)))).attemptsMade + 1
        waits :=
          (if attempt = 0 then [] else [2 ^ (attempt - 1)]) ++
            (analyzeFrom f ex m s msg n oc (attempt + 1) fuel
              (some (failCause (oc attempt)))).waits } := by
  rcases hoc : oc attempt with e | body | ⟨status, text⟩
  · simp [analyzeFrom, hoc, failCause]
  · rcases body with e | v
    · simp [analyzeFrom, hoc, failCause]
    · rw [hoc] at h
      simp [attemptFails] at h
  · simp [analyzeFrom, hoc, failCause]

/-- If every iteration in range fails, the loop uses all its fuel and ends
with the last iteration's failure cause. -/
theorem analyzeFrom_exhaust (f : String → Option Json) (ex : Json → Option String)
    (m s msg : String) (n : Int) (oc : Nat → AttemptOutcome) :
    ∀ (fuel attempt : Nat) (le : Option AIError), 1 ≤ fuel →
      (∀ j, attempt ≤ j → j < attempt + fuel → attemptFails (oc j) = true) →
      (analyzeFrom f ex m s msg n oc attempt fuel le).attemptsMade = fuel ∧
      (analyzeFrom f ex m s msg n oc attempt fuel le).result =
        Except.error (failCause (oc (attempt + fuel - 1))) := by
  intro fuel
  induction fuel with
  | zero => intro attempt le h; omega
  | succ k ih =>
    intro attempt le _ hall
    have hfail : attemptFails (oc attempt) = true := hall attempt le_rfl (by omega)
    rw [analyzeFrom_succ_fail f ex m s msg n oc attempt k le hfail]
    cases k with
    | zero =>
      refine ⟨rfl, ?_⟩
      simp [analyzeFrom, Nat.add_sub_cancel]
    | succ k' =>
      have hrec := ih (attempt + 1) (some (failCause (oc attempt))) (by omega)
        (fun j h1 h2 => hall j (by omega) (by omega))
      have hidx : attempt + 1 + (k' + 1) - 1 = attempt + (k' + 1 + 1) - 1 := by omega
      rw [hidx] at hrec
      exact ⟨by simp [hrec.1], hrec.2⟩

/-- C7: one `analyze` call makes at most `max_retries + 1` attempts; the
recorded backoff waits are exactly `2^(j)` seconds before the `(j+1)`-th
retry, i.e. `2^(attempt-1)` before the `attempt`-th retry; and when every
attempt fails (network error, non-2xx status, or a body that fails JSON
decoding), the call returns the error recorded for the last attempt. -/
theorem c7_retry_backoff_last_error (f : String → Option Json) (ex : Json → Option String)
    (m s msg : String) (n : Int) (oc : Nat → AttemptOutcome) (maxRetries : Nat) :
    (analyzeLoop f ex m s msg n oc maxRetries).attemptsMade ≤ maxRetries + 1 ∧
    (analyzeLoop f ex m s msg n oc maxRetries).waits =
      (List.range ((analyzeLoop f ex m s msg n oc maxRetries).attemptsMade - 1)).map
        (fun j => 2 ^ j) ∧
    ((∀ j, j ≤ maxRetries → attemptFails (oc j) = true) →
      (analyzeLoop f ex m s msg n oc maxRetries).attemptsMade = maxRetries + 1 ∧
      (analyzeLoop f ex m s msg n oc maxRetries).result =
        Except.error (failCause (oc maxRetries))) := by
  refine ⟨analyzeFrom_attemptsMade_le f ex m s msg n oc _ _ _, ?_, ?_⟩
  · unfold analyzeLoop
    rcases hoc : oc 0 with e | body | ⟨status, text⟩
    · simp only [analyzeFrom, hoc, if_pos rfl]
      rw [analyzeFrom_waits f ex m s msg n oc maxRetries 1 _ le_rfl]
      simp
    · rcases body with e | v
      · simp only [analyzeFrom, hoc, if_pos rfl]
        rw [analyzeFrom_waits f ex m s msg n oc maxRetries 1 _ le_rfl]
        simp
      · rcases hev : ex v with _ | content <;> simp [analyzeFrom, hoc, hev]
    · simp only [analyzeFrom, hoc, if_pos rfl]
      rw [analyzeFrom_waits f ex m s msg n oc maxRetries 1 _ le_rfl]
      simp
  · intro hall
    have h := analyzeFrom_exhaust f ex m s msg n oc (maxRetries + 1) 0 none (by omega)
      (fun j h1 h2 => hall j (by omega))
    simpa using h

/-- C7 (witness): with every attempt a network failure `"x"` and
`max_retries = 1`, the call makes 2 attempts and returns the network error. -/
theorem c7_witness :
    (analyzeLoop (fun _ => none) kimiExtract "响应中没有 content 字段" "kimi" "msg" 0
        (fun _ => .sendErr "x") 1).attemptsMade = 1 + 1 ∧
    (analyzeLoop (fun _ => none) kimiExtract "响应中没有 content 字段" "kimi" "msg" 0
        (fun _ => .sendErr "x") 1).result =
      Except.error (failCause ((fun _ => AttemptOutcome.sendErr "x") 1)) :=
  (c7_retry_backoff_last_error (fun _ => none) kimiExtract "响应中没有 content 字段" "kimi"
    "msg" 0 (fun _ => .sendErr "x") 1).2.2 (fun _ _ => rfl)

/-- C4 (counterexample): with `max_retries = 2`, a first attempt whose HTTP
response succeeds and decodes but lacks the `content` field makes the Kimi
`analyze` return a `ParseError` after a single attempt — the parse failure
aborts instead of being retried as the claim states. -/
theorem c4_counterexample :
    (kimiAnalyze (fun _ => none) "msg" 0
        (fun _ => .success (.ok (Json.obj []))) 2).attemptsMade = 1 ∧
    (kimiAnalyze (fun _ => none) "msg" 0
        (fun _ => .success (.ok (Json.obj []))) 2).result =
      Except.error (.parseError "响应中没有 content 字段") := by
  constructor <;> rfl

/-- C4 (amended): a response body that fails JSON decoding counts as that
attempt's failure and is retried like a transport failure; but a
successfully decoded envelope lacking the expected content field returns a
`ParseError` immediately, aborting the remaining retry attempts. -/
theorem c4_amended_decode_retries_missing_field_aborts (f : String → Option Json)
    (ex : Json → Option String) (m s msg : String) (n : Int) (oc : Nat → AttemptOutcome)
    (maxRetries : Nat) :
    (∀ e, oc 0 = .success (.error e) → 1 ≤ maxRetries →
      2 ≤ (analyzeLoop f ex m s msg n oc maxRetries).attemptsMade) ∧
    (∀ v, oc 0 = .success (.ok v) → ex v = none →
      (analyzeLoop f ex m s msg n oc maxRetries).attemptsMade = 1 ∧
      (analyzeLoop f ex m s msg n oc maxRetries).result = Except.error (.parseError m)) := by
  constructor
  · intro e hoc hmr
    have hfail : attemptFails (oc 0) = true := by rw [hoc]; rfl
    unfold analyzeLoop
    rw [analyzeFrom_succ_fail f ex m s msg n oc 0 maxRetries none hfail]
    have h1 := analyzeFrom_one_le_attemptsMade f ex m s msg n oc maxRetries (0 + 1)
      (some (failCause (oc 0))) hmr
    simp only [AnalyzeTrace.mk.injEq]
    omega
  · intro v hoc hev
    unfold analyzeLoop
    simp [analyzeFrom, hoc, hev]

/-- C4 (witness): the amended statement on a concrete run — the first body
fails to decode and `max_retries = 1`, so at least two attempts are made. -/
theorem c4_amended_witness :
    2 ≤ (analyzeLoop (fun _ => none) kimiExtract "响应中没有 content 字段" "kimi" "msg" 0
        (fun _ => .success (.error "bad")) 1).attemptsMade :=
  (c4_amended_decode_retries_missing_field_aborts (fun _ => none) kimiExtract
    "响应中没有 content 字段" "kimi" "msg" 0 (fun _ => .success (.error "bad")) 1).1
    "bad" rfl le_rfl

end TGMonitor
